import Mathlib

set_option maxRecDepth 4000

namespace TodoApp

/-!  Shallow embedding of the task-management frontend
     (auth session controller, token codec, route guard, task hook).

     JavaScript builtins used by the source (`split`, `trim`, `atob`,
     `decodeURIComponent` over percent-encoded bytes, `JSON.parse`) are
     modelled as total Lean functions returning `Option`, mirroring the
     `try/catch → null` discipline of the source. -/

/-- JS `String.prototype.split(sep)` for a one-character separator:
splits on every occurrence, keeps empty pieces; `"".split(sep) = [""]`. -/
def jsSplit (sep : Char) : List Char → List (List Char)
  | [] => [[]]
  | c :: cs =>
    if c = sep then [] :: jsSplit sep cs
    else
      match jsSplit sep cs with
      | [] => [[c]]
      | p :: ps => (c :: p) :: ps

/-- The WhiteSpace and LineTerminator code points recognised by
JS `String.prototype.trim()`. -/
def jsIsWhite (c : Char) : Bool :=
  let n := c.toNat
  n == 0x9 || n == 0xA || n == 0xB || n == 0xC || n == 0xD ||
  n == 0x20 || n == 0xA0 || n == 0x1680 ||
  decide (0x2000 ≤ n ∧ n ≤ 0x200A) ||
  n == 0x2028 || n == 0x2029 || n == 0x202F || n == 0x205F ||
  n == 0x3000 || n == 0xFEFF

def jsTrimList (cs : List Char) : List Char :=
  ((cs.dropWhile jsIsWhite).reverse.dropWhile jsIsWhite).reverse

/-- Model of JS `String.prototype.trim()`. -/
def jsTrim (s : String) : String := String.mk (jsTrimList s.data)

/-- JS `String.prototype.length` counts UTF-16 code units. -/
def utf16Len (c : Char) : Nat := if c.toNat ≥ 0x10000 then 2 else 1

def jsLength (s : String) : Nat := (s.data.map utf16Len).sum

/-! ### `atob` (WHATWG forgiving-base64 decode) -/

def b64Val (c : Char) : Option Nat :=
  if 'A' ≤ c ∧ c ≤ 'Z' then some (c.toNat - 'A'.toNat)
  else if 'a' ≤ c ∧ c ≤ 'z' then some (c.toNat - 'a'.toNat + 26)
  else if '0' ≤ c ∧ c ≤ '9' then some (c.toNat - '0'.toNat + 52)
  else if c = '+' then some 62
  else if c = '/' then some 63
  else none

/-- ASCII whitespace stripped by forgiving-base64. -/
def isB64Ws (c : Char) : Bool :=
  let n := c.toNat
  n == 0x9 || n == 0xA || n == 0xC || n == 0xD || n == 0x20

/-- Remove up to two trailing padding characters. -/
def dropTrailingEq (cs : List Char) : List Char :=
  match cs.reverse with
  | '=' :: '=' :: r => r.reverse
  | '=' :: r => r.reverse
  | _ => cs

/-- Reassemble 6-bit groups into bytes; a trailing group of 2 (resp. 3)
characters contributes 1 (resp. 2) bytes, low bits discarded. -/
def b64Assemble : List Nat → List Nat
  | a :: b :: c :: d :: rest =>
    (a * 4 + b / 16) :: ((b % 16) * 16 + c / 4) :: ((c % 4) * 64 + d) :: b64Assemble rest
  | [a, b] => [a * 4 + b / 16]
  | [a, b, c] => [a * 4 + b / 16, (b % 16) * 16 + c / 4]
  | _ => []

/-- Model of the `atob` builtin: forgiving-base64 decode to a byte list,
`none` where `atob` throws. -/
def atobModel (cs : List Char) : Option (List Nat) :=
  let data := cs.filter (fun c => !isB64Ws c)
  let data := if data.length % 4 = 0 then dropTrailingEq data else data
  if data.length % 4 = 1 then none
  else
    match data.mapM b64Val with
    | none => none
    | some vals => some (b64Assemble vals)

/-! ### Strict UTF-8 decoding

The source turns `atob`'s byte string into percent-encoding and feeds it to
`decodeURIComponent`, which throws unless the bytes are a valid (shortest
form, surrogate-free) UTF-8 encoding; that composite is exactly a strict
UTF-8 decoder. -/

def utf8Cont (b : Nat) : Bool := decide (0x80 ≤ b ∧ b ≤ 0xBF)

def utf8Decode : List Nat → Option (List Char)
  | [] => some []
  | b :: rest =>
    if b ≤ 0x7F then
      (utf8Decode rest).map (fun cs => Char.ofNat b :: cs)
    else if 0xC2 ≤ b ∧ b ≤ 0xDF then
      match rest with
      | c1 :: rest2 =>
        if utf8Cont c1 then
          (utf8Decode rest2).map (fun cs => Char.ofNat ((b - 0xC0) * 64 + (c1 - 0x80)) :: cs)
        else none
      | _ => none
    else if 0xE0 ≤ b ∧ b ≤ 0xEF then
      match rest with
      | c1 :: c2 :: rest2 =>
        let lo1 := if b = 0xE0 then 0xA0 else 0x80
        let hi1 := if b = 0xED then 0x9F else 0xBF
        if decide (lo1 ≤ c1 ∧ c1 ≤ hi1) && utf8Cont c2 then
          (utf8Decode rest2).map (fun cs =>
            Char.ofNat ((b - 0xE0) * 4096 + (c1 - 0x80) * 64 + (c2 - 0x80)) :: cs)
        else none
      | _ => none
    else if 0xF0 ≤ b ∧ b ≤ 0xF4 then
      match rest with
      | c1 :: c2 :: c3 :: rest2 =>
        let lo1 := if b = 0xF0 then 0x90 else 0x80
        let hi1 := if b = 0xF4 then 0x8F else 0xBF
        if decide (lo1 ≤ c1 ∧ c1 ≤ hi1) && utf8Cont c2 && utf8Cont c3 then
          (utf8Decode rest2).map (fun cs =>
            Char.ofNat ((b - 0xF0) * 262144 + (c1 - 0x80) * 4096 + (c2 - 0x80) * 64 + (c3 - 0x80)) :: cs)
        else none
      | _ => none
    else none

/-! ### `JSON.parse` -/

/-- JSON values. Numbers keep their validated lexeme; the only numeric
question the frontend ever asks of a parsed payload is JS truthiness. -/
inductive Json where
  | null : Json
  | bool (b : Bool) : Json
  | num (lexeme : String) : Json
  | str (s : String) : Json
  | arr (items : List Json) : Json
  | obj (fields : List (String × Json)) : Json
  deriving Repr, BEq

/-- JSON insignificant whitespace. -/
def jsonWs (c : Char) : Bool :=
  let n := c.toNat
  n == 0x20 || n == 0x9 || n == 0xA || n == 0xD

def skipWs (cs : List Char) : List Char := cs.dropWhile jsonWs

def hexVal (c : Char) : Option Nat :=
  if '0' ≤ c ∧ c ≤ '9' then some (c.toNat - '0'.toNat)
  else if 'a' ≤ c ∧ c ≤ 'f' then some (c.toNat - 'a'.toNat + 10)
  else if 'A' ≤ c ∧ c ≤ 'F' then some (c.toNat - 'A'.toNat + 10)
  else none

def parseHex4 : List Char → Option (Nat × List Char)
  | a :: b :: c :: d :: rest => do
    let va ← hexVal a
    let vb ← hexVal b
    let vc ← hexVal c
    let vd ← hexVal d
    some (va * 4096 + vb * 256 + vc * 16 + vd, rest)
  | _ => none

/-- A scalar code point, with surrogates mapped to U+FFFD (Lean `Char`
cannot carry the lone surrogates a JS string can). -/
def cpChar (n : Nat) : Char :=
  if n < 0xD800 ∨ (0xDFFF < n ∧ n < 0x110000) then Char.ofNat n else Char.ofNat 0xFFFD

/-- Body of a JSON string after the opening quote: content and remainder
after the closing quote. -/
def parseStrBody (fuel : Nat) (cs : List Char) : Option (List Char × List Char) :=
  match fuel with
  | 0 => none
  | fuel + 1 =>
    match cs with
    | [] => none
    | c :: rest =>
      if c = '"' then some ([], rest)
      else if c = '\\' then
        match rest with
        | [] => none
        | e :: rest2 =>
          if e = 'u' then
            match parseHex4 rest2 with
            | none => none
            | some (n, rest3) =>
              if 0xD800 ≤ n ∧ n ≤ 0xDBFF then
                match rest3 with
                | '\\' :: 'u' :: tail =>
                  match parseHex4 tail with
                  | some (m, rest4) =>
                    if 0xDC00 ≤ m ∧ m ≤ 0xDFFF then
                      (parseStrBody fuel rest4).map (fun p =>
                        (Char.ofNat (0x10000 + (n - 0xD800) * 1024 + (m - 0xDC00)) :: p.1, p.2))
                    else (parseStrBody fuel rest3).map (fun p => (Char.ofNat 0xFFFD :: p.1, p.2))
                  | none => (parseStrBody fuel rest3).map (fun p => (Char.ofNat 0xFFFD :: p.1, p.2))
                | _ => (parseStrBody fuel rest3).map (fun p => (Char.ofNat 0xFFFD :: p.1, p.2))
              else (parseStrBody fuel rest3).map (fun p => (cpChar n :: p.1, p.2))
          else
            let esc : Option Char :=
              if e = '"' then some '"'
              else if e = '\\' then some '\\'
              else if e = '/' then some '/'
              else if e = 'b' then some (Char.ofNat 8)
              else if e = 'f' then some (Char.ofNat 12)
              else if e = 'n' then some '\n'
              else if e = 'r' then some (Char.ofNat 13)
              else if e = 't' then some '\t'
              else none
            match esc with
            | none => none
            | some ch => (parseStrBody fuel rest2).map (fun p => (ch :: p.1, p.2))
      else if c.toNat < 0x20 then none
      else (parseStrBody fuel rest).map (fun p => (c :: p.1, p.2))

def isDigit (c : Char) : Bool := decide ('0' ≤ c ∧ c ≤ '9')

def parseIntPart : List Char → Option (List Char × List Char)
  | '0' :: r => some (['0'], r)
  | cs =>
    let p := cs.span isDigit
    if p.1.isEmpty then none else some p

def parseFrac : List Char → Option (List Char × List Char)
  | '.' :: r =>
    let p := r.span isDigit
    if p.1.isEmpty then none else some ('.' :: p.1, p.2)
  | cs => some ([], cs)

def parseExp : List Char → Option (List Char × List Char)
  | e :: r =>
    if e = 'e' ∨ e = 'E' then
      let sr : List Char × List Char :=
        match r with
        | '+' :: r2 => (['+'], r2)
        | '-' :: r2 => (['-'], r2)
        | _ => ([], r)
      let p := sr.2.span isDigit
      if p.1.isEmpty then none else some (e :: sr.1 ++ p.1, p.2)
    else some ([], e :: r)
  | [] => some ([], [])

/-- A JSON number lexeme: `-? int frac? exp?`. -/
def parseNumLex (cs0 : List Char) : Option (List Char × List Char) := do
  let (neg, cs1) :=
    match cs0 with
    | '-' :: r => (['-'], r)
    | _ => (([] : List Char), cs0)
  let (ip, cs2) ← parseIntPart cs1
  let (fp, cs3) ← parseFrac cs2
  let (ep, cs4) ← parseExp cs3
  some (neg ++ ip ++ fp ++ ep, cs4)

mutual

def parseVal : Nat → List Char → Option (Json × List Char)
  | 0, _ => none
  | fuel + 1, cs =>
    match skipWs cs with
    | [] => none
    | 'n' :: 'u' :: 'l' :: 'l' :: r => some (.null, r)
    | 't' :: 'r' :: 'u' :: 'e' :: r => some (.bool true, r)
    | 'f' :: 'a' :: 'l' :: 's' :: 'e' :: r => some (.bool false, r)
    | '"' :: r =>
      (parseStrBody (r.length + 1) r).map (fun p => (.str (String.mk p.1), p.2))
    | '{' :: r =>
      match skipWs r with
      | '}' :: r2 => some (.obj [], r2)
      | r2 => (parseMembers fuel r2).map (fun p => (.obj p.1, p.2))
    | '[' :: r =>
      match skipWs r with
      | ']' :: r2 => some (.arr [], r2)
      | r2 => (parseElems fuel r2).map (fun p => (.arr p.1, p.2))
    | cs2 => (parseNumLex cs2).map (fun p => (.num (String.mk p.1), p.2))

def parseMembers : Nat → List Char → Option (List (String × Json) × List Char)
  | 0, _ => none
  | fuel + 1, cs =>
    match skipWs cs with
    | '"' :: r =>
      match parseStrBody (r.length + 1) r with
      | none => none
      | some (key, r1) =>
        match skipWs r1 with
        | ':' :: r2 =>
          match parseVal fuel r2 with
          | none => none
          | some (v, r3) =>
            match skipWs r3 with
            | ',' :: r4 => (parseMembers fuel r4).map (fun p => ((String.mk key, v) :: p.1, p.2))
            | '}' :: r4 => some ([(String.mk key, v)], r4)
            | _ => none
        | _ => none
    | _ => none

def parseElems : Nat → List Char → Option (List Json × List Char)
  | 0, _ => none
  | fuel + 1, cs =>
    match parseVal fuel cs with
    | none => none
    | some (v, r) =>
      match skipWs r with
      | ',' :: r2 => (parseElems fuel r2).map (fun p => (v :: p.1, p.2))
      | ']' :: r2 => some ([v], r2)
      | _ => none

end

/-- Model of the `JSON.parse` builtin: parse one value, allow surrounding
whitespace, require the whole input consumed; `none` where it throws. -/
def jsonParse (s : String) : Option Json :=
  match parseVal (s.length + 1) s.data with
  | none => none
  | some (v, rest) => if (skipWs rest).isEmpty then some v else none

/-- Zero test on a number lexeme: the mantissa digits are all `0`
(the exponent cannot rescue a zero mantissa). -/
def numLexIsZero (lex : String) : Bool :=
  ((lex.data.takeWhile (fun c => !(c == 'e' || c == 'E'))).filter isDigit).all
    (fun c => c == '0')

/-- JS truthiness of a parsed JSON value (`if (decoded) ...`). -/
def jsTruthy : Json → Bool
  | .null => false
  | .bool b => b
  | .num lex => !numLexIsZero lex
  | .str s => !(s == "")
  | .arr _ => true
  | .obj _ => true

/-- JS property access `obj[key]` on a parsed JSON value: `none` for
`undefined` (missing key, or a non-object receiver); with duplicate keys
the last occurrence wins, as in `JSON.parse`. -/
def jsGet (j : Json) (key : String) : Option Json :=
  match j with
  | .obj fields => fields.foldl (fun acc kv => if kv.1 == key then some kv.2 else acc) none
  | _ => none

/-! ### Token Codec (`parseJwt`, `src/frontend/src/context/AuthContext.tsx`) -/

def b64UrlToB64 (c : Char) : Char :=
  if c = '-' then '+' else if c = '_' then '/' else c

/-- `parseJwt` from `AuthContext.tsx`: split on dots, take the second
segment (`parts.length < 2 || !parts[1]` rejected), base64url → base64,
`atob`, percent-decode as UTF-8, `JSON.parse`; every failure that the
source catches is `none` here. -/
def parseJwt (token : String) : Option Json :=
  if token == "" then none
  else
    match (jsSplit '.' token.data).get? 1 with
    | none => none
    | some p =>
      if p.isEmpty then none
      else
        match atobModel (p.map b64UrlToB64) with
        | none => none
        | some bytes =>
          match utf8Decode bytes with
          | none => none
          | some payload => jsonParse (String.mk payload)

/-! ### Session data model (`AuthContext.tsx`) -/

/-- The persisted token slot (`localStorage`, key `access_token`). -/
structure Store where
  access_token : Option String
  deriving Repr, DecidableEq

/-- The `User` shape built from token claims: `id`/`email` hold whatever
`decoded.sub` / `decoded.email` evaluate to (`none` for `undefined`). -/
structure UserJs where
  id : Option Json
  email : Option Json
  token : String
  deriving Repr, BEq

structure SessionState where
  user : Option UserJs
  loading : Bool
  error : Option String
  isAuthenticated : Bool
  deriving Repr, BEq

def anonSession : SessionState := ⟨none, false, none, false⟩

def mkUser (decoded : Json) (t : String) : UserJs :=
  ⟨jsGet decoded "sub", jsGet decoded "email", t⟩

/-- The `useState` initializer of `AuthContextProvider`: synchronously read
the persisted token; a truthy, decodable-to-truthy token yields the
authenticated state, anything else the anonymous default. -/
def authInit (store : Store) : SessionState :=
  match store.access_token with
  | none => anonSession
  | some t =>
    if t == "" then anonSession
    else
      match parseJwt t with
      | some decoded =>
        if jsTruthy decoded then ⟨some (mkUser decoded t), false, none, true⟩
        else anonSession
      | none => anonSession

/-- Everything `signIn` leaves behind once it resolves. -/
structure SignInOut where
  state : SessionState
  store : Store
  ret : Option String
  navs : List String
  deriving Repr, BEq

/-- The in-flight state set before awaiting the hook:
`setAuthState(prev => ({ ...prev, loading: true, error: null }))`. -/
def signInPending (st : SessionState) : SessionState :=
  { st with loading := true, error := none }

/-- `signIn` from `AuthContext.tsx`, resumed after `authHook.signIn` has
resolved: `store1` is the persisted slot as the hook left it and
`hookRet` the hook's resolved value (`none` for a JS-falsy resolution,
i.e. `undefined`/`null`; `some ""` is also falsy and handled below). -/
def ctxSignIn (st0 : SessionState) (store1 : Store) (hookRet : Option String) : SignInOut :=
  let st1 := signInPending st0
  match hookRet with
  | some t =>
    if t == "" then
      -- `if (token)` is false for the empty string: the no-token branch runs
      { state := { st1 with loading := false }, store := store1, ret := none, navs := [] }
    else
      let store2 := { store1 with access_token := some t }
      match parseJwt t with
      | some decoded =>
        if jsTruthy decoded then
          { state := ⟨some (mkUser decoded t), false, none, true⟩, store := store2,
            ret := some t, navs := ["/tasks"] }
        else
          -- token present but not decodable to a truthy value: stored again, no identity
          { state := ⟨none, false, none, false⟩,
            store := { store2 with access_token := some t }, ret := some t, navs := [] }
      | none =>
        { state := ⟨none, false, none, false⟩,
          store := { store2 with access_token := some t }, ret := some t, navs := [] }
  | none => { state := { st1 with loading := false }, store := store1, ret := none, navs := [] }

/-- The `catch` branch of `signIn` (runs only if the awaited hook rejects
with message `msg`): the prev-based update overwrites every field. -/
def signInFailedState (msg : String) : SessionState :=
  ⟨none, false, some (if msg == "" then "Sign in failed" else msg), false⟩

/-- `signUp` is textually identical to `signIn` apart from its catch
fallback message. -/
def ctxSignUp (st0 : SessionState) (store1 : Store) (hookRet : Option String) : SignInOut :=
  ctxSignIn st0 store1 hookRet

def signUpFailedState (msg : String) : SessionState :=
  ⟨none, false, some (if msg == "" then "Sign up failed" else msg), false⟩

/-- `signOut` from `AuthContext.tsx`: both the success and the catch branch
clear the identity and navigate to `/signin`. -/
def ctxSignOut (st : SessionState) : SessionState × List String :=
  (⟨none, false, none, false⟩, ["/signin"])

/-- Invariant claimed by the spec for every reachable session state. -/
def sessionInvariant (s : SessionState) : Prop :=
  s.isAuthenticated = true ↔ s.user.isSome = true

/-- Session states reachable through the Session Controller's operations:
initialization from the persisted token, the in-flight phase, and the
settle/catch branches of `signIn`/`signUp`, and `signOut`. -/
inductive ReachableSession : SessionState → Prop where
  | init (store : Store) : ReachableSession (authInit store)
  | pending (s : SessionState) (h : ReachableSession s) : ReachableSession (signInPending s)
  | signInDone (s : SessionState) (store : Store) (ret : Option String)
      (h : ReachableSession s) : ReachableSession (ctxSignIn s store ret).state
  | signInCatch (msg : String) : ReachableSession (signInFailedState msg)
  | signUpDone (s : SessionState) (store : Store) (ret : Option String)
      (h : ReachableSession s) : ReachableSession (ctxSignUp s store ret).state
  | signUpCatch (msg : String) : ReachableSession (signUpFailedState msg)
  | signedOut (s : SessionState) (h : ReachableSession s) : ReachableSession (ctxSignOut s).1

/-! ### Auth hook (`useBetterAuth.ts`) and the composed sign-in flow -/

/-- Outcome of `POST /auth/signin`: a resolved response whose body may or
may not carry `access_token`, or a rejection (network error or non-2xx). -/
inductive ApiSignInResult where
  | ok (access_token : Option String)
  | fail
  deriving Repr, DecidableEq

/-- `signInHandler` from `useBetterAuth.ts`: the POST is attempted and any
backend error swallowed; the stored token is the response's
`access_token` when truthy, else the fallback `"dev-token"`; it always
navigates to `/tasks` and resolves with `undefined`. -/
def signInHandler (store : Store) (api : ApiSignInResult) : Store × List String :=
  let token :=
    match api with
    | .ok (some t) => if t == "" then "dev-token" else t
    | .ok none => "dev-token"
    | .fail => "dev-token"
  ({ store with access_token := some token }, ["/tasks"])

/-- The sign-in flow as wired in the repository: `AuthContext.signIn`
awaits `signInHandler`, which resolves with `undefined`, so the
controller then runs on a `none` hook value. -/
def signInComposed (st : SessionState) (store : Store) (api : ApiSignInResult) : SignInOut :=
  let hs := signInHandler store api
  let out := ctxSignIn st hs.1 none
  { out with navs := hs.2 ++ out.navs }

/-! ### Route Guard (`AuthGuard.tsx`) -/

/-- Outcome of `GET /auth/me` through axios: `resolved code` for a 2xx
response, `rejected` for a non-2xx status or a network failure. -/
inductive MeResult where
  | resolved (code : Nat)
  | rejected
  deriving Repr, DecidableEq

structure GuardResult where
  rendersChildren : Bool
  networkCalled : Bool
  redirectedToSignIn : Bool
  deriving Repr, DecidableEq

/-- `AuthGuard`'s effect, settled: a truthy persisted token short-circuits
to authorized with no network call; otherwise one identity-check call
decides between children and a redirect to `/signin`. -/
def authGuard (store : Store) (me : MeResult) : GuardResult :=
  match store.access_token with
  | some t =>
    if t == "" then authGuardSlow me else ⟨true, false, false⟩
  | none => authGuardSlow me
where
  authGuardSlow : MeResult → GuardResult
    | .resolved code => if code == 200 then ⟨true, true, false⟩ else ⟨false, true, true⟩
    | .rejected => ⟨false, true, true⟩

/-! ### Task Collection Hook (`useTasks`) -/

structure Task where
  id : String
  title : String
  is_completed : Bool
  deriving Repr, DecidableEq

structure PaginationState where
  currentPage : Int
  pageSize : Int
  totalItems : Int
  totalPages : Int
  canGoBack : Bool
  canGoForward : Bool
  deriving Repr, DecidableEq

/-- The hook's initial pagination state. -/
def initialPagination : PaginationState := ⟨1, 20, 0, 1, false, false⟩

structure TasksState where
  tasks : List Task
  loading : Bool
  error : Option String
  pagination : PaginationState
  deriving Repr, DecidableEq

/-- Body of a successful paginated list response. -/
structure TaskListResponse where
  items : List Task
  page : Int
  page_size : Int
  total : Int
  total_pages : Int
  deriving Repr, DecidableEq

inductive FetchOutcome where
  | ok (res : TaskListResponse)
  | fail (msg : String)
  deriving Repr, DecidableEq

/-- `fetchPage(page, pageSize)` settled with `outcome`: without a user it
returns immediately; on success the cache is replaced and pagination
derived from the server totals; on failure only the error message is
set; the `finally` clears `loading` on both paths. -/
def fetchPage (user : Option UserJs) (st : TasksState) (page pageSize : Int)
    (outcome : FetchOutcome) : TasksState :=
  match user with
  | none => st
  | some _ =>
    match outcome with
    | .ok r =>
      { tasks := r.items,
        loading := false,
        error := none,
        pagination :=
          { currentPage := r.page, pageSize := r.page_size, totalItems := r.total,
            totalPages := r.total_pages,
            canGoBack := decide (r.page > 1),
            canGoForward := decide (r.page < r.total_pages) } }
    | .fail msg =>
      { st with error := some (if msg == "" then "Failed to load tasks" else msg),
                loading := false }

/-- The hook state while `toggleComplete`'s PATCH is in flight: `none` when
the operation never reaches the request (no user: it throws; id not in
the cache: it returns before `setLoading`). The cached tasks are
untouched at this point — the `setTasks` flip sits after the `await`. -/
def toggleInFlight (user : Option UserJs) (st : TasksState) (taskId : String) :
    Option TasksState :=
  match user with
  | none => none
  | some _ =>
    match st.tasks.find? (fun t => t.id == taskId) with
    | none => none
    | some _ => some { st with loading := true }

/-- `toggleComplete(id)` settled: `.error` models the
`throw new Error('Not authenticated')`; the returned `Bool` records
whether a PATCH was issued. On PATCH success the cached copy is flipped;
on PATCH failure the current page is re-fetched with `refetch`'s result. -/
def toggleComplete (user : Option UserJs) (st : TasksState) (taskId : String)
    (patchOk : Bool) (refetch : FetchOutcome) : Except String (TasksState × Bool) :=
  match user with
  | none => .error "Not authenticated"
  | some u =>
    match st.tasks.find? (fun t => t.id == taskId) with
    | none => .ok (st, false)
    | some _ =>
      let st1 := { st with loading := true }
      if patchOk then
        .ok ({ st1 with
                 tasks := st1.tasks.map (fun t =>
                   if t.id == taskId then { t with is_completed := !t.is_completed } else t),
                 loading := false }, true)
      else
        let st2 := fetchPage (some u) st1 st.pagination.currentPage st.pagination.pageSize refetch
        .ok ({ st2 with loading := false }, true)

/-! ### Validation (`validation.ts`) -/

structure ValidationResult where
  valid : Bool
  errors : List String
  deriving Repr, DecidableEq

/-- `validateTaskTitle` from `validation.ts`: a falsy or all-whitespace
title is "required"; the length check runs on the trimmed title. -/
def validateTaskTitle (title : String) : ValidationResult :=
  let errors1 : List String :=
    if title == "" || jsTrim title == "" then ["Title is required"] else []
  let trimmed := if title == "" then "" else jsTrim title
  let errors :=
    errors1 ++ (if jsLength trimmed > 255 then ["Title must be 255 characters or fewer"] else [])
  ⟨errors.isEmpty, errors⟩

/-! ### Concrete fixtures used by witnesses and counterexamples -/

def demoUser : UserJs := ⟨some (Json.str "u1"), some (Json.str "a@b.c"), "tok"⟩

def demoTask : Task := ⟨"t1", "demo", false⟩

def demoTasks : TasksState := ⟨[demoTask], false, none, initialPagination⟩

/-! ### Theorems -/

/-- Claim C1 (evaluation at the failing input): with a cached task
`{id := "t1", is_completed := false}` and a resolved identity,
`toggleComplete "t1"` does not flip the cached value before the network
request resolves — the in-flight state still carries
`is_completed = false` — because the `setTasks` flip sits after the
`await`; the flip lands only once the PATCH resolves successfully, and a
failing PATCH replaces the cache with the re-fetched server page. -/
theorem toggleComplete_inflight_not_flipped :
    toggleInFlight (some demoUser) demoTasks "t1"
      = some { demoTasks with loading := true } ∧
    (toggleInFlight (some demoUser) demoTasks "t1").map TasksState.tasks
      = some [⟨"t1", "demo", false⟩] ∧
    toggleComplete (some demoUser) demoTasks "t1" true (.fail "unused")
      = .ok ({ demoTasks with tasks := [⟨"t1", "demo", true⟩] }, true) ∧
    toggleComplete (some demoUser) demoTasks "t1" false
        (.ok ⟨[⟨"t1", "demo", true⟩], 1, 20, 1, 1⟩)
      = .ok (⟨[⟨"t1", "demo", true⟩], false, none, ⟨1, 20, 1, 1, false, false⟩⟩, true) :=
  ⟨rfl, rfl, rfl, rfl⟩

/-- Claim C2 (counterexample): a failing sign-in attempt from the anonymous
state leaves `error = null` (no `Failed` state) and writes the fallback
token `"dev-token"` into the persisted slot, contrary to the claim's
"error message set, no token written". -/
theorem signIn_failure_counterexample :
    (signInComposed anonSession ⟨none⟩ .fail).store.access_token = some "dev-token" ∧
    (signInComposed anonSession ⟨none⟩ .fail).state.error = none ∧
    (signInComposed anonSession ⟨none⟩ .fail).state.isAuthenticated = false ∧
    (signInComposed anonSession ⟨none⟩ .fail).ret = none :=
  ⟨rfl, rfl, rfl, rfl⟩

/-- Claim C2 (amended): on every failing sign-in the composed flow returns
`null` without raising, never reaches a `Failed` state (the hook swallows
the error), persists the fallback token `"dev-token"`, navigates to
`/tasks`, and leaves the controller's `user`/`isAuthenticated` unchanged
with `loading = false` and `error = null`. -/
theorem signIn_failure_behavior (st : SessionState) (store : Store) :
    signInComposed st store .fail
      = { state := { st with loading := false, error := none },
          store := { store with access_token := some "dev-token" },
          ret := none, navs := ["/tasks"] } :=
  rfl

/-- Claim C6: whenever a non-empty token sits in the persisted slot — valid
or not — the guard renders its children and issues no network call to the
identity-check endpoint, whatever that endpoint would have answered. -/
theorem authGuard_fast_path (t : String) (me : MeResult) (h : ¬ t = "") :
    authGuard ⟨some t⟩ me = ⟨true, false, false⟩ := by
  have h' : (t == "") = false := by simpa using h
  unfold authGuard
  simp [h']

/-- Witness for C6 at a concrete undecodable token. -/
theorem authGuard_fast_path_witness :
    authGuard ⟨some "not-a-valid-jwt"⟩ .rejected = ⟨true, false, false⟩ :=
  authGuard_fast_path "not-a-valid-jwt" .rejected (by decide)

/-- Claim C7: a failing `fetchPage` with a resolved identity sets the error
field to a message and leaves the cached tasks and pagination untouched;
`loading` is cleared on the failure path and on the success path alike. -/
theorem fetchPage_failure_frame (u : UserJs) (st : TasksState) (page pageSize : Int)
    (msg : String) (r : TaskListResponse) :
    (fetchPage (some u) st page pageSize (.fail msg)).tasks = st.tasks ∧
    (fetchPage (some u) st page pageSize (.fail msg)).pagination = st.pagination ∧
    (fetchPage (some u) st page pageSize (.fail msg)).error
      = some (if msg == "" then "Failed to load tasks" else msg) ∧
    (fetchPage (some u) st page pageSize (.fail msg)).loading = false ∧
    (fetchPage (some u) st page pageSize (.ok r)).loading = false :=
  ⟨rfl, rfl, rfl, rfl, rfl⟩

/-- Claim C8: with an identity and a fixed server response, running
`fetchPage 1 20` twice is the same as running it once — the cache and the
whole `PaginationState` agree — and the derived flags satisfy
`canGoBack = currentPage > 1` and `canGoForward = currentPage < totalPages`. -/
theorem fetchPage_idempotent (u : UserJs) (st : TasksState) (r : TaskListResponse) :
    fetchPage (some u) (fetchPage (some u) st 1 20 (.ok r)) 1 20 (.ok r)
      = fetchPage (some u) st 1 20 (.ok r) ∧
    (fetchPage (some u) st 1 20 (.ok r)).tasks = r.items ∧
    (fetchPage (some u) st 1 20 (.ok r)).pagination.canGoBack
      = decide ((fetchPage (some u) st 1 20 (.ok r)).pagination.currentPage > 1) ∧
    (fetchPage (some u) st 1 20 (.ok r)).pagination.canGoForward
      = decide ((fetchPage (some u) st 1 20 (.ok r)).pagination.currentPage
          < (fetchPage (some u) st 1 20 (.ok r)).pagination.totalPages) :=
  ⟨rfl, rfl, rfl, rfl⟩

/-- Claim C10: with a resolved identity and an id absent from the cached
list, `toggleComplete` issues no request (it returns before `setLoading`)
and the state — tasks, pagination, loading, error — is exactly unchanged. -/
theorem toggleComplete_missing_id_noop
    (u : UserJs) (st : TasksState) (taskId : String) (patchOk : Bool) (refetch : FetchOutcome)
    (h : st.tasks.find? (fun t => t.id == taskId) = none) :
    toggleComplete (some u) st taskId patchOk refetch = .ok (st, false) ∧
    toggleInFlight (some u) st taskId = none := by
  unfold toggleComplete toggleInFlight
  simp [h]

/-- Witness for C10 at a concrete cached list and missing id. -/
theorem toggleComplete_missing_id_witness :
    toggleComplete (some demoUser) demoTasks "zz" true (.fail "x") = .ok (demoTasks, false) ∧
    toggleInFlight (some demoUser) demoTasks "zz" = none :=
  toggleComplete_missing_id_noop demoUser demoTasks "zz" true (.fail "x") (by rfl)

theorem jsLength_empty : jsLength "" = 0 := rfl

/-- Claim C9 (counterexample): a 256-character title whose first character
is a space is accepted (`valid = true`), and a 255-character non-empty
all-whitespace title is rejected — refuting "every 256-character title
gets a length error" and "every 255-character non-empty title is valid". -/
theorem validateTaskTitle_counterexample :
    jsLength (String.mk (' ' :: List.replicate 255 'a')) = 256 ∧
    (validateTaskTitle (String.mk (' ' :: List.replicate 255 'a'))).valid = true ∧
    jsLength (String.mk (List.replicate 255 ' ')) = 255 ∧
    ¬ String.mk (List.replicate 255 ' ') = "" ∧
    (validateTaskTitle (String.mk (List.replicate 255 ' '))).valid = false := by
  refine ⟨?_, ?_, ?_, ?_, ?_⟩ <;> decide

/-- Claim C9 (amended): `validateTaskTitle` judges everything on the
trimmed title — an empty or all-whitespace title yields exactly the
"Title is required" error; a title whose trimmed form exceeds 255 UTF-16
units yields exactly the length error; a title whose trimmed form is
non-empty and within 255 units is valid. -/
theorem validateTaskTitle_trimmed_semantics :
    (∀ s : String, jsTrim s = "" →
        validateTaskTitle s = ⟨false, ["Title is required"]⟩) ∧
    (∀ s : String, ¬ jsTrim s = "" → jsLength (jsTrim s) > 255 →
        validateTaskTitle s = ⟨false, ["Title must be 255 characters or fewer"]⟩) ∧
    (∀ s : String, ¬ jsTrim s = "" → jsLength (jsTrim s) ≤ 255 →
        validateTaskTitle s = ⟨true, []⟩) := by
  refine ⟨?_, ?_, ?_⟩
  · intro s h
    have hb : (jsTrim s == "") = true := by simpa using h
    unfold validateTaskTitle
    simp [hb, h, jsLength_empty]
  · intro s h hl
    have hs : ¬ s = "" := fun e => h (by rw [e]; decide)
    have hb1 : (s == "") = false := by simpa using hs
    have hb2 : (jsTrim s == "") = false := by simpa using h
    unfold validateTaskTitle
    simp [hb1, hb2, hl]
  · intro s h hl
    have hs : ¬ s = "" := fun e => h (by rw [e]; decide)
    have hb1 : (s == "") = false := by simpa using hs
    have hb2 : (jsTrim s == "") = false := by simpa using h
    unfold validateTaskTitle
    simp [hb1, hb2, Nat.not_lt.mpr hl]

/-- Witness for the amended C9 at concrete titles: all-whitespace,
256 non-whitespace characters, and a short plain title. -/
theorem validateTaskTitle_trimmed_witness :
    validateTaskTitle "   " = ⟨false, ["Title is required"]⟩ ∧
    validateTaskTitle (String.mk (List.replicate 256 'a'))
      = ⟨false, ["Title must be 255 characters or fewer"]⟩ ∧
    validateTaskTitle "abc" = ⟨true, []⟩ :=
  ⟨validateTaskTitle_trimmed_semantics.1 "   " (by decide),
   validateTaskTitle_trimmed_semantics.2.1 (String.mk (List.replicate 256 'a'))
     (by decide) (by decide),
   validateTaskTitle_trimmed_semantics.2.2 "abc" (by decide) (by decide)⟩

/-- Claim C3 (counterexample): a token with four dot-separated segments —
the wrong segment count for a JWT — is not rejected: its second segment
decodes, so `parseJwt` returns the claims instead of the undecodable
signal. -/
theorem parseJwt_segments_counterexample :
    (jsSplit '.' ("h.eyJzdWIiOiJ1MSJ9.s.x").data).length = 4 ∧
    parseJwt "h.eyJzdWIiOiJ1MSJ9.s.x" = some (.obj [("sub", .str "u1")]) :=
  ⟨rfl, rfl⟩

/-- Claim C3 (amended): `parseJwt` is a total function returning the
undecodable signal (`none`) — never raising — for the empty token, for
fewer than two dot-separated segments, for an empty second segment, and
whenever base64 decoding, UTF-8 decoding, or JSON parsing of the second
segment fails; it does not check the segment count beyond index 1. -/
theorem parseJwt_failure_modes :
    parseJwt "" = none ∧
    (∀ s : String, (jsSplit '.' s.data).length < 2 → parseJwt s = none) ∧
    (∀ s : String, (jsSplit '.' s.data).get? 1 = some [] → parseJwt s = none) ∧
    (∀ (s : String) (p : List Char), (jsSplit '.' s.data).get? 1 = some p →
        atobModel (p.map b64UrlToB64) = none → parseJwt s = none) ∧
    (∀ (s : String) (p : List Char) (bytes : List Nat),
        (jsSplit '.' s.data).get? 1 = some p →
        atobModel (p.map b64UrlToB64) = some bytes → utf8Decode bytes = none →
        parseJwt s = none) ∧
    (∀ (s : String) (p : List Char) (bytes : List Nat) (payload : List Char),
        (jsSplit '.' s.data).get? 1 = some p →
        atobModel (p.map b64UrlToB64) = some bytes →
        utf8Decode bytes = some payload → jsonParse (String.mk payload) = none →
        parseJwt s = none) := by
  refine ⟨rfl, ?_, ?_, ?_, ?_, ?_⟩
  · intro s h
    have hn : (jsSplit '.' s.data).get? 1 = none := by
      rw [List.get?_eq_none]
      omega
    by_cases hs : s = ""
    · simp [hs, parseJwt]
    · have hb : ¬ (s == "") = true := by simpa using hs
      unfold parseJwt
      rw [if_neg hb, hn]
  · intro s h
    by_cases hs : s = ""
    · simp [hs, parseJwt]
    · have hb : ¬ (s == "") = true := by simpa using hs
      unfold parseJwt
      rw [if_neg hb, h]
      rfl
  · intro s p h ha
    by_cases hs : s = ""
    · simp [hs, parseJwt]
    · have hb : ¬ (s == "") = true := by simpa using hs
      unfold parseJwt
      rw [if_neg hb, h]
      dsimp only
      by_cases hp : p.isEmpty = true
      · rw [if_pos hp]
      · rw [if_neg hp, ha]
  · intro s p bytes h ha hu
    by_cases hs : s = ""
    · simp [hs, parseJwt]
    · have hb : ¬ (s == "") = true := by simpa using hs
      unfold parseJwt
      rw [if_neg hb, h]
      dsimp only
      by_cases hp : p.isEmpty = true
      · rw [if_pos hp]
      · rw [if_neg hp, ha]
        dsimp only
        rw [hu]
  · intro s p bytes payload h ha hu hj
    by_cases hs : s = ""
    · simp [hs, parseJwt]
    · have hb : ¬ (s == "") = true := by simpa using hs
      unfold parseJwt
      rw [if_neg hb, h]
      dsimp only
      by_cases hp : p.isEmpty = true
      · rw [if_pos hp]
      · rw [if_neg hp, ha]
        dsimp only
        rw [hu]
        dsimp only
        rw [hj]

/-- Witness for the amended C3: each failure mode applied at a concrete
malformed token. -/
theorem parseJwt_failure_witness :
    parseJwt "abc" = none ∧
    parseJwt "a." = none ∧
    parseJwt "h.####.s" = none ∧
    parseJwt "h.gA.s" = none ∧
    parseJwt "h.YWI.s" = none :=
  ⟨parseJwt_failure_modes.2.1 "abc" (by decide),
   parseJwt_failure_modes.2.2.1 "a." (by rfl),
   parseJwt_failure_modes.2.2.2.1 "h.####.s" ("####".data) (by rfl) (by rfl),
   parseJwt_failure_modes.2.2.2.2.1 "h.gA.s" ("gA".data) [128] (by rfl) (by rfl) (by rfl),
   parseJwt_failure_modes.2.2.2.2.2 "h.YWI.s" ("YWI".data) [97, 98] ['a', 'b']
     (by rfl) (by rfl) (by rfl) (by rfl)⟩

/-- Claim C4: when the hook resolves with a non-empty token whose payload
decodes to a truthy claims mapping carrying string claims `sub` and
`email`, the controller becomes `Authenticated` with identity
`{id := sub, email := email, token}` built from exactly those claims, the
token sits in the persisted slot, the token is returned, and a full
navigation to `/tasks` is requested. -/
theorem ctxSignIn_success_authenticates
    (st : SessionState) (store : Store) (t : String) (decoded : Json) (sub em : String)
    (ht : ¬ t = "") (hp : parseJwt t = some decoded) (htr : jsTruthy decoded = true)
    (hsub : jsGet decoded "sub" = some (.str sub))
    (hem : jsGet decoded "email" = some (.str em)) :
    (ctxSignIn st store (some t)).state
      = ⟨some ⟨some (.str sub), some (.str em), t⟩, false, none, true⟩ ∧
    (ctxSignIn st store (some t)).store = ⟨some t⟩ ∧
    (ctxSignIn st store (some t)).ret = some t ∧
    (ctxSignIn st store (some t)).navs = ["/tasks"] := by
  have ht' : (t == "") = false := by simpa using ht
  unfold ctxSignIn
  simp [ht', hp, htr, mkUser, hsub, hem]

def demoToken : String := "h.eyJzdWIiOiJ1MSIsImVtYWlsIjoiYUBiLmMifQ.s"

def demoClaims : Json := .obj [("sub", .str "u1"), ("email", .str "a@b.c")]

/-- Witness for C4 at a concrete decodable token whose payload is
`{"sub":"u1","email":"a@b.c"}`. -/
theorem ctxSignIn_success_witness :
    (ctxSignIn anonSession ⟨none⟩ (some demoToken)).state
      = ⟨some ⟨some (.str "u1"), some (.str "a@b.c"), demoToken⟩, false, none, true⟩ ∧
    (ctxSignIn anonSession ⟨none⟩ (some demoToken)).store = ⟨some demoToken⟩ ∧
    (ctxSignIn anonSession ⟨none⟩ (some demoToken)).ret = some demoToken ∧
    (ctxSignIn anonSession ⟨none⟩ (some demoToken)).navs = ["/tasks"] :=
  ctxSignIn_success_authenticates anonSession ⟨none⟩ demoToken demoClaims "u1" "a@b.c"
    (by decide) (by rfl) (by rfl) (by rfl) (by rfl)

/-- Claim C5: in every session state reachable through the Session
Controller's operations — initialization from the persisted token, the
in-flight and settle/catch phases of `signIn`/`signUp`, and `signOut` —
`isAuthenticated` is `true` exactly when a user identity is present. -/
theorem sessionInvariant_reachable (s : SessionState) (h : ReachableSession s) :
    s.isAuthenticated = true ↔ s.user.isSome = true := by
  induction h with
  | init store =>
    obtain ⟨tok⟩ := store
    cases tok with
    | none => simp [authInit, anonSession]
    | some t =>
      unfold authInit
      dsimp only
      split
      · simp [anonSession]
      · split
        · split <;> simp [anonSession]
        · simp [anonSession]
  | pending s hs ih => simpa [signInPending] using ih
  | signInDone s store ret hs ih =>
    unfold ctxSignIn
    cases ret with
    | none => simpa [signInPending] using ih
    | some t =>
      dsimp only
      split
      · simpa [signInPending] using ih
      · split
        · split <;> simp
        · simp
  | signInCatch msg => simp [signInFailedState]
  | signUpDone s store ret hs ih =>
    unfold ctxSignUp ctxSignIn
    cases ret with
    | none => simpa [signInPending] using ih
    | some t =>
      dsimp only
      split
      · simpa [signInPending] using ih
      · split
        · split <;> simp
        · simp
  | signUpCatch msg => simp [signUpFailedState]
  | signedOut s hs ih => simp [ctxSignOut]

/-- Witness for C5 at the initial state derived from an empty store. -/
theorem sessionInvariant_witness :
    (authInit ⟨none⟩).isAuthenticated = true ↔ (authInit ⟨none⟩).user.isSome = true :=
  sessionInvariant_reachable (authInit ⟨none⟩) (.init ⟨none⟩)

end TodoApp
